import Mathlib

/-
Verification of the MotorControl repository specification against the source.

Shallow embedding conventions:
- Python floats are modelled as exact rationals (ℚ); float rounding noise is
  not load-bearing for any property checked here.
- `np.std(xs) < thr` is embedded as `popVariance xs < thr ^ 2`, which is
  equivalent for a nonnegative threshold because std is the square root of the
  population variance and squaring is monotone on nonnegatives.
- The serial transport is external: drained "Angle:" lines arrive as a list of
  (angle, arrival_time) pairs per polling tick, and commands written to the
  transport are accumulated in an explicit transcript.
-/

set_option maxRecDepth 10000

/- The Batteries rational arithmetic operations are shipped irreducible, which
blocks elaboration-time evaluation of concrete rational computations; the
kernel itself checks the resulting proofs as usual. -/
set_option allowUnsafeReducibility true
attribute [semireducible] Rat.add Rat.sub Rat.mul Rat.inv Rat.neg

/-! ## Angle unwrap and the velocity estimator (legacy/1-2.py, process_serial_data) -/

/-- Shortest-path unwrap of an angle difference, from legacy/1-2.py lines 70-71:
if the raw difference exceeds 180 subtract 360, if below -180 add 360. -/
def unwrap (delta : ℚ) : ℚ :=
  if 180 < delta then delta - 360
  else if delta < -180 then delta + 360
  else delta

/-- Estimator state: the module-level variables last_angle, last_time,
is_first_point of legacy/1-2.py lines 50-52. -/
structure EstState where
  last_angle : ℚ
  last_time : ℚ
  is_first_point : Bool
deriving DecidableEq

/-- One observation of the angle-velocity estimator: the body of the
"Angle:" branch of process_serial_data (legacy/1-2.py lines 67-80) for a single
line.  Returns the updated estimator state and the emitted velocity, if any. -/
def observe (s : EstState) (angle atime : ℚ) : EstState × Option ℚ :=
  if s.is_first_point then
    (⟨angle, atime, false⟩, none)
  else
    let dt := atime - s.last_time
    let delta := unwrap (angle - s.last_angle)
    (⟨angle, atime, false⟩, if 0 < dt then some (delta / dt) else none)

/-- Per-run mutable data of legacy/1-2.py: the current_run_time and
current_run_vel buffers (lines 30-31) together with the estimator state. -/
structure RunBuf where
  time_buf : List ℚ
  vel_buf : List ℚ
  est : EstState
deriving DecidableEq

/-- Processing of a single drained "Angle:" line (legacy/1-2.py lines 62-80):
feed the sample to the estimator and, when a velocity is emitted, append the
arrival time and the velocity to the run buffers. -/
def process_line (b : RunBuf) (sample : ℚ × ℚ) : RunBuf :=
  match observe b.est sample.1 sample.2 with
  | (e, none) => { b with est := e }
  | (e, some v) =>
      { time_buf := b.time_buf ++ [sample.2], vel_buf := b.vel_buf ++ [v], est := e }

/-- process_serial_data (legacy/1-2.py lines 54-83): drain all currently
available lines, processing each in arrival order. -/
def process_serial_data (b : RunBuf) (lines : List (ℚ × ℚ)) : RunBuf :=
  lines.foldl process_line b

/-! ## Windowed statistics and the two detectors (legacy/1-2.py lines 85-104) -/

/-- Arithmetic mean of a list of rationals (np.mean); 0 on the empty list. -/
def listMean (xs : List ℚ) : ℚ := xs.sum / (xs.length : ℚ)

/-- Population variance of a list (the square of np.std, ddof = 0). -/
def popVariance (xs : List ℚ) : ℚ :=
  ((xs.map (fun x => (x - listMean xs) ^ 2)).sum) / (xs.length : ℚ)

/-- The trailing n elements of a list: Python xs[-n:]. -/
def lastN (n : Nat) (xs : List ℚ) : List ℚ := xs.drop (xs.length - n)

/-- Embedding of `np.std(xs) < thr` for a nonnegative threshold: the standard
deviation is below thr iff the population variance is below thr squared. -/
def std_lt (xs : List ℚ) (thr : ℚ) : Bool := decide (popVariance xs < thr ^ 2)

/-- legacy/1-2.py line 17. -/
def STEADY_STATE_THRESHOLD : ℚ := 2
/-- legacy/1-2.py line 18. -/
def STEADY_STATE_POINTS : Nat := 25
/-- legacy/1-2.py line 19. -/
def STOP_THRESHOLD : ℚ := 1
/-- legacy/1-2.py line 20. -/
def STOP_POINTS : Nat := 25
/-- legacy/1-2.py line 15. -/
def D_VALUES : List Int := [150, 175, 200, 225, 250]

/-- check_steady_state (legacy/1-2.py lines 85-93): false with fewer than
STEADY_STATE_POINTS samples, else the standard deviation of the trailing
STEADY_STATE_POINTS velocities must be below STEADY_STATE_THRESHOLD. -/
def check_steady_state (vel : List ℚ) : Bool :=
  if vel.length < STEADY_STATE_POINTS then false
  else std_lt (lastN STEADY_STATE_POINTS vel) STEADY_STATE_THRESHOLD

/-- check_stopped (legacy/1-2.py lines 95-104): with fewer than STOP_POINTS
samples, satisfied iff the buffer is non-empty and the absolute value of the
last sample is below STOP_THRESHOLD; otherwise the mean absolute value of the
trailing STOP_POINTS velocities must be below STOP_THRESHOLD. -/
def check_stopped (vel : List ℚ) : Bool :=
  if vel.length < STOP_POINTS then
    decide (0 < vel.length ∧ |vel.getLastD 0| < STOP_THRESHOLD)
  else
    decide (listMean ((lastN STOP_POINTS vel).map (fun v => |v|)) < STOP_THRESHOLD)

/-! ## The experiment state machine (legacy/1-2.py, manage_experiment) -/

/-- The values of the module-level STATE string of legacy/1-2.py. -/
inductive MState where
  | IDLE
  | START_MOTOR
  | WAIT_STEADY
  | WAIT_STOP
  | FINISHED
  | PLOT_CLOSED
deriving DecidableEq

/-- Full machine state of legacy/1-2.py: STATE, d_index, results (an
insertion-ordered mapping from d value to the sealed run data), the per-run
buffers and estimator, plus the transcript of d commands written to the
transport by send_d_to_arduino. -/
structure ExpState where
  state : MState
  d_index : Nat
  results : List (Int × (List ℚ × List ℚ))
  run : RunBuf
  sent : List Int
deriving DecidableEq

/-- manage_experiment (legacy/1-2.py lines 106-153) for one polling tick:
process all drained lines, then evaluate the state transition logic once. -/
def manage_experiment (dvals : List Int) (input : List (ℚ × ℚ)) (s : ExpState) :
    ExpState :=
  let s := { s with run := process_serial_data s.run input }
  match s.state with
  | .IDLE => { s with state := .START_MOTOR }
  | .START_MOTOR =>
      if s.d_index < dvals.length then
        { s with
          run := { time_buf := [], vel_buf := [],
                   est := { s.run.est with is_first_point := true } },
          sent := s.sent ++ [dvals.getD s.d_index 0],
          state := .WAIT_STEADY }
      else { s with state := .FINISHED }
  | .WAIT_STEADY =>
      if check_steady_state s.run.vel_buf then
        { s with sent := s.sent ++ [0], state := .WAIT_STOP }
      else s
  | .WAIT_STOP =>
      if check_stopped s.run.vel_buf then
        { s with
          results := s.results ++
            [(dvals.getD s.d_index 0, (s.run.time_buf, s.run.vel_buf))],
          d_index := s.d_index + 1,
          state := .START_MOTOR }
      else s
  | .FINISHED => { s with state := .PLOT_CLOSED }
  | .PLOT_CLOSED => s

/-- Iterate manage_experiment over a script of per-tick drained line lists. -/
def runScript (dvals : List Int) (script : List (List (ℚ × ℚ))) (s : ExpState) :
    ExpState :=
  script.foldl (fun st inp => manage_experiment dvals inp st) s

/-- Initial state of the main program (legacy/1-2.py lines 23-31, 49-52,
171-172): IDLE, empty buffers, first-point estimator, and one initial zero
command already written (line 171). -/
def initExp : ExpState :=
  ⟨.IDLE, 0, [], ⟨[], [], ⟨0, 0, true⟩⟩, [0]⟩

/-- The main loop of legacy/1-2.py lines 169-181: the initial zero command,
the polling loop over the scripted serial input, and the final zero command
written by the finally block (line 180). -/
def mainLoop (dvals : List Int) (script : List (List (ℚ × ℚ))) : ExpState :=
  let s := runScript dvals script initExp
  { s with sent := s.sent ++ [0] }

/-! ## A canonical satisfying input schedule for the state machine -/

/-- 26 scripted angle samples: constant angle 0 at times 1..26.  The first
stores the reference; the next 25 each emit velocity 0 with dt = 1, which
satisfies both the steady-state and the stop detector. -/
def samples26 : List (ℚ × ℚ) :=
  ((0 : ℚ), (1 : ℚ)) :: (List.range 25).map (fun i => ((0 : ℚ), (i : ℚ) + 2))

/-- The 25 velocity values produced from samples26. -/
def zeros25 : List ℚ := List.replicate 25 0

/-- The 25 arrival times recorded from samples26. -/
def times25 : List ℚ := (List.range 25).map (fun i => (i : ℚ) + 2)

/-- The run buffer after a full run over samples26. -/
def postBuf : RunBuf := ⟨times25, zeros25, ⟨0, 26, false⟩⟩

/-- Per-run tick schedule: a tick that fires START_MOTOR, a tick delivering
samples26 (steady state reached), and a tick that observes the stop. -/
def perRun : List (List (ℚ × ℚ)) := [[], samples26, []]

/-- Tick schedule completing n runs and then the transition to FINISHED. -/
def scriptFor : Nat → List (List (ℚ × ℚ))
  | 0 => [[]]
  | n + 1 => perRun ++ scriptFor n

/-- Full canonical schedule: one tick leaving IDLE, then the n runs. -/
def canonicalScript (n : Nat) : List (List (ℚ × ℚ)) := [] :: scriptFor n

/-! ## Sweep-driver metrics (src/tune_kp.py lines 19-49; src/tune_kd.py has a
textually identical calculate_metrics at lines 26-55) -/

/-- Maximum of a list (np.max); 0 on the empty list (unreached: callers guard
on at least 10 samples). -/
def listMax : List ℚ → ℚ
  | [] => 0
  | x :: xs => xs.foldl max x

/-- calculate_metrics of tune_kp.py/tune_kd.py.  Returns
(rise time, overshoot, steady-state error); the early return for fewer than
10 samples yields (none, none, none), and the normal path always yields
numeric overshoot and steady-state error. -/
def calculate_metrics (time_data pos_data : List ℚ) (target : ℚ) :
    Option ℚ × Option ℚ × Option ℚ :=
  if pos_data.length < 10 then (none, none, none)
  else
    let t := time_data.map (fun x => x - time_data.getD 0 0)
    let y := pos_data
    let rt :=
      match y.findIdx? (fun v => target * (1 / 10) ≤ v),
            y.findIdx? (fun v => target * (9 / 10) ≤ v) with
      | some i, some j => some (t.getD j 0 - t.getD i 0)
      | _, _ => none
    let peak := listMax y
    let overshoot := if target < peak then (peak - target) / target * 100 else 0
    let avg_final := listMean (y.drop (9 * y.length / 10))
    (rt, some overshoot, some (target - avg_final))

/-- The steady-state tail mean in the words of the spec: the arithmetic mean
of the last 10 percent of the samples (the slice y[int(0.9 n):]). -/
def spec_tail_mean (y : List ℚ) : ℚ := listMean (y.drop (9 * y.length / 10))

/-! ## PID plotter metrics (src/plotter_pid.py, save_performance_metrics,
lines 116-185) -/

/-- The downward settling-time scan of save_performance_metrics lines
140-145: for i in range(len(pos_vals)-1, 0, -1), stop at the first index i
(largest index, indices below 1 never inspected) violating the 2 percent
band; report time_vals[i+1] when i is not the final index, else nothing. -/
def spm_settling_scan (time_vals pos_vals : List ℚ) (thr reference : ℚ) :
    Nat → Option ℚ
  | 0 => none
  | i + 1 =>
      if thr < |pos_vals.getD (i + 1) 0 - reference| then
        if i + 1 < time_vals.length - 1 then some (time_vals.getD (i + 2) 0)
        else none
      else spm_settling_scan time_vals pos_vals thr reference i

/-- Settling time of save_performance_metrics (lines 138-145), with the
threshold 0.02 * reference of line 139. -/
def spm_settling_time (time_vals pos_vals : List ℚ) (reference : ℚ) : Option ℚ :=
  spm_settling_scan time_vals pos_vals ((2 / 100) * reference) reference
    (pos_vals.length - 1)

/-- The forward rise-time scan of save_performance_metrics lines 150-158 over
(time, position) pairs: record the first time position reaches the 10 percent
threshold, stop at the first time it reaches the 90 percent threshold. -/
def spm_rise_scan (thr10 thr90 : ℚ) :
    List (ℚ × ℚ) → Option ℚ → Option ℚ × Option ℚ
  | [], rs => (rs, none)
  | p :: rest, rs =>
      let rs2 := match rs with
        | none => if thr10 ≤ p.2 then some p.1 else none
        | some x => some x
      if thr90 ≤ p.2 then (rs2, some p.1)
      else spm_rise_scan thr10 thr90 rest rs2

/-- Rise time of save_performance_metrics (lines 147-160).  The Python guard
`if (rise_start and rise_end)` uses truthiness, so a recorded time equal to
0.0 also falls back to None; that quirk is embedded faithfully. -/
def spm_rise_time (time_vals pos_vals : List ℚ) (reference : ℚ) : Option ℚ :=
  match spm_rise_scan ((1 / 10) * reference) ((9 / 10) * reference)
      (time_vals.zip pos_vals) none with
  | (some a, some b) => if a ≠ 0 ∧ b ≠ 0 then some (b - a) else none
  | _ => none

/-- The metrics record written by save_performance_metrics (subset relevant
to the claims: steady-state error, overshoot, settling time, rise time). -/
structure PidMetrics where
  steady_state_error : ℚ
  overshoot_percent : ℚ
  settling_time : Option ℚ
  rise_time : Option ℚ
deriving DecidableEq

/-- save_performance_metrics (plotter_pid.py lines 116-185): none when fewer
than 10 position samples (line 125), else the computed metrics with
reference = last reference value (0 when absent, line 130),
steady-state error = reference - final position (lines 131-132), and
overshoot = (peak - reference) / reference * 100 guarded only by
reference > 0 (line 136). -/
def save_performance_metrics (time_vals pos_vals ref_vals : List ℚ) :
    Option PidMetrics :=
  if pos_vals.length < 10 then none
  else
    let reference := ref_vals.getLastD 0
    let final_position := pos_vals.getLastD 0
    let peak := listMax pos_vals
    some
      { steady_state_error := reference - final_position,
        overshoot_percent :=
          if 0 < reference then (peak - reference) / reference * 100 else 0,
        settling_time := spm_settling_time time_vals pos_vals reference,
        rise_time := spm_rise_time time_vals pos_vals reference }

/-- Settling time of calculate_performance (p2-1_pid_simulation.py lines
149-156): the time of the first sample whose normalized response is inside
the 2 percent band, or the final time when no sample ever is. -/
def calculate_performance_settling (t position : List ℚ) (reference : ℚ) : ℚ :=
  let y_norm := position.map (fun p => p / reference)
  match y_norm.findIdx? (fun v => |v - 1| < 2 / 100) with
  | some i => t.getD i 0
  | none => t.getLastD 0

/-! ## The gain-sweep driver (src/tune_kp.py, main, lines 51-124;
src/tune_kd.py main is structurally identical, differing only in the
arguments of the G command) -/

/-- Commands written to the serial transport by the sweep driver. -/
inductive Cmd where
  | S
  | Z
  | G (kp ki kd : ℚ)
  | R (v : ℚ)
deriving DecidableEq

/-- tune_kp.py line 16. -/
def TARGET_POS : ℚ := 200

/-- One iteration of the sweep loop of tune_kp.py main (lines 65-116): the
five writes S, Z, G, R:target, R:0 and the unconditional append of one result
record (kp, (rise time, overshoot, steady-state error)).  The Data lines
captured during the test window arrive from the scripted transport as
(t, position) pairs. -/
def sweep_step (responses : ℚ → List (ℚ × ℚ))
    (acc : List Cmd × List (ℚ × (Option ℚ × Option ℚ × Option ℚ))) (kp : ℚ) :
    List Cmd × List (ℚ × (Option ℚ × Option ℚ × Option ℚ)) :=
  let data := responses kp
  let m := calculate_metrics (data.map Prod.fst) (data.map Prod.snd) TARGET_POS
  (acc.1 ++ [Cmd.S, Cmd.Z, Cmd.G kp 0 0, Cmd.R TARGET_POS, Cmd.R 0],
   acc.2 ++ [(kp, m)])

/-- The whole sweep of tune_kp.py main: the per-gain iterations followed by
the final stop command of line 118.  Returns the full write transcript and
the results list. -/
def sweep_main (gains : List ℚ) (responses : ℚ → List (ℚ × ℚ)) :
    List Cmd × List (ℚ × (Option ℚ × Option ℚ × Option ℚ)) :=
  let r := gains.foldl (sweep_step responses) ([], [])
  (r.1 ++ [Cmd.S], r.2)

/-- The d commands written during a sweep over the given values by the
canonical schedule: for each value, the value itself at START_MOTOR and the
zero once steady state is reached. -/
def sentFor : List Int → List Int
  | [] => []
  | d :: rest => d :: 0 :: sentFor rest

/-! ## Helper lemmas -/

theorem listMean_replicate (n : Nat) (v : ℚ) (hn : n ≠ 0) :
    listMean (List.replicate n v) = v := by
  have h : (n : ℚ) ≠ 0 := Nat.cast_ne_zero.mpr hn
  unfold listMean
  rw [List.sum_replicate, List.length_replicate, nsmul_eq_mul,
    mul_div_cancel_left₀ _ h]

theorem popVariance_replicate (n : Nat) (v : ℚ) (hn : n ≠ 0) :
    popVariance (List.replicate n v) = 0 := by
  unfold popVariance
  rw [listMean_replicate n v hn, List.map_replicate]
  simp

theorem calculate_metrics_sse (t y : List ℚ) (target : ℚ) (hlen : 10 ≤ y.length) :
    (calculate_metrics t y target).2.2 = some (target - spec_tail_mean y) := by
  simp [calculate_metrics, spec_tail_mean, Nat.not_lt.mpr hlen]

/-! ## Claim theorems -/

/-- C6: the steady-state detector (window 25, stddev statistic) is satisfied
iff at least 25 values were pushed and the standard deviation of the last 25
is below its threshold (encoded as variance below threshold squared), hence
never with 24 or fewer values, and always by 25 identical values; the stop
detector on a buffer shorter than its window is satisfied iff the buffer is
non-empty and the absolute value of the last value is below its threshold, so
a single 0.5 satisfies threshold 1.0 and a single 5.0 does not. -/
theorem C6_window_detectors :
    (∀ buf : List ℚ, buf.length < 25 → check_steady_state buf = false)
    ∧ (∀ v : ℚ, check_steady_state (List.replicate 25 v) = true)
    ∧ (∀ buf : List ℚ, 25 ≤ buf.length →
        (check_steady_state buf = true ↔
          popVariance (lastN STEADY_STATE_POINTS buf) < STEADY_STATE_THRESHOLD ^ 2))
    ∧ (∀ buf : List ℚ, buf.length < 25 →
        (check_stopped buf = true ↔ buf ≠ [] ∧ |buf.getLastD 0| < STOP_THRESHOLD))
    ∧ check_stopped [1 / 2] = true ∧ check_stopped [5] = false := by
  refine ⟨?_, ?_, ?_, ?_, by decide, by decide⟩
  · intro buf h
    simp [check_steady_state, STEADY_STATE_POINTS, h]
  · intro v
    have hlen : (List.replicate 25 v).length = 25 := by
      rw [List.length_replicate]
    have h0 : lastN STEADY_STATE_POINTS (List.replicate 25 v) =
        List.replicate 25 v := by
      unfold lastN STEADY_STATE_POINTS
      rw [hlen]
      rw [Nat.sub_self, List.drop_zero]
    unfold check_steady_state
    rw [if_neg (by rw [hlen]; unfold STEADY_STATE_POINTS; omega)]
    unfold std_lt
    rw [h0, popVariance_replicate 25 v (by norm_num)]
    decide
  · intro buf h
    simp [check_steady_state, STEADY_STATE_POINTS, Nat.not_lt.mpr h, std_lt]
  · intro buf h
    simp [check_stopped, STOP_POINTS, h, List.length_pos]

/-- C6 witness: the steady-state detector is unsatisfied on a 3-element
buffer. -/
theorem C6_witness :
    ([(1 : ℚ), 2, 3] : List ℚ).length < 25 ∧
      check_steady_state [(1 : ℚ), 2, 3] = false :=
  ⟨by decide, C6_window_detectors.1 [(1 : ℚ), 2, 3] (by decide)⟩

/-- C7: the estimator emits nothing on the first observation after a reset
and only stores angle and time; a later observation with positive dt emits
exactly the unwrapped angle difference divided by dt; an observation with
nonpositive dt emits nothing but still updates the stored angle and time;
and the START_MOTOR transition of the state machine resets the estimator to
the first-point state. -/
theorem C7_estimator :
    (∀ s : EstState, ∀ angle atime : ℚ, s.is_first_point = true →
        observe s angle atime = (⟨angle, atime, false⟩, none))
    ∧ (∀ s : EstState, ∀ angle atime : ℚ, s.is_first_point = false →
        0 < atime - s.last_time →
        observe s angle atime =
          (⟨angle, atime, false⟩,
            some (unwrap (angle - s.last_angle) / (atime - s.last_time))))
    ∧ (∀ s : EstState, ∀ angle atime : ℚ, s.is_first_point = false →
        atime - s.last_time ≤ 0 →
        observe s angle atime = (⟨angle, atime, false⟩, none))
    ∧ (∀ dvals : List Int, ∀ input : List (ℚ × ℚ), ∀ s : ExpState,
        s.state = .START_MOTOR → s.d_index < dvals.length →
        (manage_experiment dvals input s).run.est.is_first_point = true) := by
  refine ⟨?_, ?_, ?_, ?_⟩
  · intro s angle atime h
    simp [observe, h]
  · intro s angle atime h1 h2
    simp [observe, h1, h2]
  · intro s angle atime h1 h2
    simp [observe, h1, not_lt.mpr h2]
  · intro dvals input s h1 h2
    obtain ⟨st, k, res, run, snt⟩ := s
    simp only at h1
    subst h1
    simp only at h2
    simp [manage_experiment, h2]

/-- C7 witness: a fresh estimator stores the first sample and emits
nothing. -/
theorem C7_witness :
    (⟨0, 0, true⟩ : EstState).is_first_point = true ∧
      observe ⟨0, 0, true⟩ 10 1 = (⟨10, 1, false⟩, none) :=
  ⟨rfl, C7_estimator.1 ⟨0, 0, true⟩ 10 1 rfl⟩

/-- C8: for any two angles in the interval from 0 inclusive to 360 exclusive,
the shortest-path unwrap of their raw difference lies between -180 and 180;
this covers in particular every pair whose raw difference has absolute value
greater than 180. -/
theorem C8_unwrap_bounds (a b : ℚ) (ha0 : 0 ≤ a) (ha1 : a < 360)
    (hb0 : 0 ≤ b) (hb1 : b < 360) :
    -180 ≤ unwrap (b - a) ∧ unwrap (b - a) ≤ 180 := by
  unfold unwrap
  split_ifs with h1 h2 <;> constructor <;> linarith

/-- C8 witness: the wrap-around pair 350 to 10 unwraps into the bounds. -/
theorem C8_witness :
    (0 : ℚ) ≤ 350 ∧ (350 : ℚ) < 360 ∧ (0 : ℚ) ≤ 10 ∧ (10 : ℚ) < 360 ∧
      (-180 ≤ unwrap ((10 : ℚ) - 350) ∧ unwrap ((10 : ℚ) - 350) ≤ 180) :=
  ⟨by norm_num, by norm_num, by norm_num, by norm_num,
    C8_unwrap_bounds 350 10 (by norm_num) (by norm_num) (by norm_num)
      (by norm_num)⟩

/-- C10: with fewer than 10 position samples (which includes the empty
series) the sweep-driver metric computation returns None for all three
metrics through its early return. -/
theorem C10_short_series (t y : List ℚ) (target : ℚ) (h : y.length < 10) :
    calculate_metrics t y target = (none, none, none) := by
  simp [calculate_metrics, h]

/-- C10 witness: the empty series yields the all-None triple. -/
theorem C10_witness :
    ([] : List ℚ).length < 10 ∧ calculate_metrics [] [] 5 = (none, none, none) :=
  ⟨by decide, C10_short_series [] [] 5 (by decide)⟩

/-- C5 counterexample: with target -5 (nonpositive) and ten samples,
calculate_metrics returns concrete metric values instead of failing; no
InvalidTarget error exists in the code. -/
theorem C5_counterexample :
    calculate_metrics [0, 1, 2, 3, 4, 5, 6, 7, 8, 9]
        [0, 0, 0, 0, 0, 0, 0, 0, 0, 0] (-5) =
      (some 0, some (-100), some (-5)) := by decide

/-- C5 amended: the metric computation performs no target validation; for any
nonpositive target and at least 10 samples it still returns overshoot and
steady-state-error values computed with that target. -/
theorem C5_no_target_validation (t y : List ℚ) (target : ℚ)
    (_htarget : target ≤ 0) (hlen : 10 ≤ y.length) :
    ((calculate_metrics t y target).2.1).isSome = true ∧
      ((calculate_metrics t y target).2.2).isSome = true := by
  simp [calculate_metrics, Nat.not_lt.mpr hlen]

/-- C5 witness: target -5 with ten samples yields values for overshoot and
steady-state error. -/
theorem C5_witness :
    (-5 : ℚ) ≤ 0 ∧ 10 ≤ ([0, 0, 0, 0, 0, 0, 0, 0, 0, 0] : List ℚ).length ∧
      (((calculate_metrics [0, 1, 2, 3, 4, 5, 6, 7, 8, 9]
          [0, 0, 0, 0, 0, 0, 0, 0, 0, 0] (-5)).2.1).isSome = true ∧
        ((calculate_metrics [0, 1, 2, 3, 4, 5, 6, 7, 8, 9]
          [0, 0, 0, 0, 0, 0, 0, 0, 0, 0] (-5)).2.2).isSome = true) :=
  ⟨by norm_num, by decide,
    C5_no_target_validation [0, 1, 2, 3, 4, 5, 6, 7, 8, 9]
      [0, 0, 0, 0, 0, 0, 0, 0, 0, 0] (-5) (by norm_num) (by decide)⟩

/-- C4 counterexample: in save_performance_metrics the overshoot is not
clamped at zero; on a response that never exceeds the target (peak 100,
reference 200) it returns -50 percent, a negative value, where the claim
demands zero. -/
theorem C4_counterexample :
    (save_performance_metrics [0, 1, 2, 3, 4, 5, 6, 7, 8, 9]
          [0, 0, 0, 0, 0, 0, 0, 0, 0, 100]
          [200, 200, 200, 200, 200, 200, 200, 200, 200, 200]).map
        PidMetrics.overshoot_percent = some (-50) ∧ ((-50 : ℚ) < 0) := by
  constructor
  · decide
  · norm_num

/-- C4 amended: the sweep-driver overshoot (tune_kp.py and tune_kd.py) equals
max(0, max(y) - target) / target * 100 and is 15.0 on the cited example;
save_performance_metrics in plotter_pid.py instead omits the clamp and can
return a negative overshoot when the response never exceeds the target. -/
theorem C4_overshoot :
    (∀ t y : List ℚ, ∀ target : ℚ, 0 < target → 10 ≤ y.length →
        (calculate_metrics t y target).2.1 =
          some (max 0 (listMax y - target) / target * 100))
    ∧ (calculate_metrics [0, 1, 2, 3, 4, 5, 6, 7, 8, 9]
        [0, 50, 100, 230, 210, 200, 200, 200, 200, 200] 200).2.1 = some 15 := by
  constructor
  · intro t y target h0 hlen
    have key : (if target < listMax y then (listMax y - target) / target * 100
        else 0) = max 0 (listMax y - target) / target * 100 := by
      rcases le_or_lt (listMax y) target with h | h
      · rw [if_neg (not_lt.mpr h), max_eq_left (by linarith)]
        simp
      · rw [if_pos h, max_eq_right (by linarith)]
    simp only [calculate_metrics, Nat.not_lt.mpr hlen, if_false]
    rw [← key]
  · decide

/-- C4 witness: a response capped at 100 against target 200 has clamped
overshoot zero in the sweep driver. -/
theorem C4_witness :
    (0 : ℚ) < 200 ∧
      10 ≤ ([100, 100, 100, 100, 100, 100, 100, 100, 100, 100] : List ℚ).length ∧
      (calculate_metrics [0, 1, 2, 3, 4, 5, 6, 7, 8, 9]
          [100, 100, 100, 100, 100, 100, 100, 100, 100, 100] 200).2.1 =
        some (max 0
          (listMax [100, 100, 100, 100, 100, 100, 100, 100, 100, 100] - 200) /
            200 * 100) :=
  ⟨by norm_num, by decide,
    C4_overshoot.1 [0, 1, 2, 3, 4, 5, 6, 7, 8, 9]
      [100, 100, 100, 100, 100, 100, 100, 100, 100, 100] 200 (by norm_num)
      (by decide)⟩

/-- C3 counterexample: save_performance_metrics computes the steady-state
error from the final sample only; on a 20-sample series whose last 10 percent
averages 198 but whose final sample is 200, with target 200, it returns 0
where the claim demands 2.0. -/
theorem C3_counterexample :
    (save_performance_metrics
          [0, 1, 2, 3, 4, 5, 6, 7, 8, 9, 10, 11, 12, 13, 14, 15, 16, 17, 18, 19]
          [0, 0, 0, 0, 0, 0, 0, 0, 0, 0, 0, 0, 0, 0, 0, 0, 0, 0, 196, 200]
          [200, 200, 200, 200, 200, 200, 200, 200, 200, 200,
            200, 200, 200, 200, 200, 200, 200, 200, 200, 200]).map
        PidMetrics.steady_state_error = some 0 ∧
      (200 : ℚ) - spec_tail_mean
          [0, 0, 0, 0, 0, 0, 0, 0, 0, 0, 0, 0, 0, 0, 0, 0, 0, 0, 196, 200] = 2 ∧
      (0 : ℚ) ≠ 2 := by
  refine ⟨by decide, by decide, by norm_num⟩

/-- C3 amended: the sweep-driver steady-state error (tune_kp.py and
tune_kd.py) equals target minus the mean of the last 10 percent of the
samples, and equals 2.0 whenever that tail mean is 198 and the target is 200;
save_performance_metrics in plotter_pid.py instead uses only the final
sample. -/
theorem C3_sweep_sse :
    (∀ t y : List ℚ, ∀ target : ℚ, 10 ≤ y.length →
        (calculate_metrics t y target).2.2 = some (target - spec_tail_mean y))
    ∧ (∀ t y : List ℚ, 10 ≤ y.length → spec_tail_mean y = 198 →
        (calculate_metrics t y 200).2.2 = some 2) := by
  refine ⟨calculate_metrics_sse, ?_⟩
  intro t y hlen h198
  rw [calculate_metrics_sse t y 200 hlen, h198]
  norm_num

/-- C3 witness: a 20-sample series with tail mean 198 yields steady-state
error 2 in the sweep driver. -/
theorem C3_witness :
    10 ≤ ([0, 0, 0, 0, 0, 0, 0, 0, 0, 0, 0, 0, 0, 0, 0, 0, 0, 0, 196, 200] :
        List ℚ).length ∧
      spec_tail_mean
          [0, 0, 0, 0, 0, 0, 0, 0, 0, 0, 0, 0, 0, 0, 0, 0, 0, 0, 196, 200] =
        198 ∧
      (calculate_metrics
          [0, 1, 2, 3, 4, 5, 6, 7, 8, 9, 10, 11, 12, 13, 14, 15, 16, 17, 18, 19]
          [0, 0, 0, 0, 0, 0, 0, 0, 0, 0, 0, 0, 0, 0, 0, 0, 0, 0, 196, 200]
          200).2.2 = some 2 :=
  ⟨by decide, by decide,
    C3_sweep_sse.2
      [0, 1, 2, 3, 4, 5, 6, 7, 8, 9, 10, 11, 12, 13, 14, 15, 16, 17, 18, 19]
      [0, 0, 0, 0, 0, 0, 0, 0, 0, 0, 0, 0, 0, 0, 0, 0, 0, 0, 196, 200]
      (by decide) (by decide)⟩

/-- C9 counterexample: the sweep driver run with an empty gain list still
performs a transport write, the final stop command of tune_kp.py line 118,
so the write transcript is not empty. -/
theorem C9_counterexample : (sweep_main [] (fun _ => [])).1 ≠ [] := by decide

/-- C9 amended: a sweep over an empty gain list performs exactly one
transport write, the trailing stop command S, and emits zero run records. -/
theorem C9_empty_sweep (responses : ℚ → List (ℚ × ℚ)) :
    sweep_main [] responses = ([Cmd.S], []) := rfl

/-- C9 witness: the empty sweep against an arbitrary concrete scripted
transport yields only the stop command and no records. -/
theorem C9_witness :
    sweep_main [] (fun _ => [((1 : ℚ), (2 : ℚ))]) = ([Cmd.S], []) :=
  C9_empty_sweep (fun _ => [((1 : ℚ), (2 : ℚ))])

theorem spm_settling_scan_skip (time pos : List ℚ) (thr ref : ℚ) :
    ∀ j i : Nat, i ≤ j →
      (∀ k, i < k → k ≤ j → ¬ thr < |pos.getD k 0 - ref|) →
      spm_settling_scan time pos thr ref j =
        spm_settling_scan time pos thr ref i := by
  intro j
  induction j with
  | zero =>
    intro i hle _
    have h0 : i = 0 := Nat.le_zero.mp hle
    rw [h0]
  | succ m ih =>
    intro i hle hnv
    rcases Nat.eq_or_lt_of_le hle with he | hlt
    · rw [he]
    · have him : i ≤ m := Nat.lt_succ_iff.mp hlt
      have hv : ¬ thr < |pos.getD (m + 1) 0 - ref| :=
        hnv (m + 1) (by omega) (le_refl _)
      rw [spm_settling_scan, if_neg hv]
      exact ih i him (fun k h1 h2 => hnv k h1 (by omega))

/-- C2 counterexample: on a series violating the 2 percent band at every
sample (constant 300 against reference 200), the settling-time scan of
save_performance_metrics returns None, not the full test duration 9 that the
claim specifies. -/
theorem C2_counterexample :
    spm_settling_time [0, 1, 2, 3, 4, 5, 6, 7, 8, 9]
        [300, 300, 300, 300, 300, 300, 300, 300, 300, 300] 200 = none ∧
      ([0, 1, 2, 3, 4, 5, 6, 7, 8, 9] : List ℚ).getLastD 0 = 9 ∧
      (none : Option ℚ) ≠ some 9 := by
  refine ⟨by decide, by decide, by simp⟩

/-- C2 amended: in save_performance_metrics, when the last band-violating
index i lies in [1, n-2] the settling time is the time of the next sample
t[i+1]; when the band is violated at the final sample, or at no sample with
index at least 1, the settling time is None rather than the full test
duration.  The simulation metric calculate_performance instead reports the
time of the first in-band sample (shown on a series that leaves the band
again afterwards). -/
theorem C2_settling_characterization :
    (∀ time pos : List ℚ, ∀ ref : ℚ, ∀ i : Nat,
        time.length = pos.length → 1 ≤ i → i < pos.length →
        (2 / 100) * ref < |pos.getD i 0 - ref| →
        (∀ k, i < k → k < pos.length → ¬ (2 / 100) * ref < |pos.getD k 0 - ref|) →
        spm_settling_time time pos ref =
          if i + 1 < pos.length then some (time.getD (i + 1) 0) else none)
    ∧ (∀ time pos : List ℚ, ∀ ref : ℚ,
        (∀ k, 1 ≤ k → k < pos.length → ¬ (2 / 100) * ref < |pos.getD k 0 - ref|) →
        spm_settling_time time pos ref = none)
    ∧ calculate_performance_settling [0, 1, 2, 3] [0, 200, 0, 200] 200 = 1 := by
  refine ⟨?_, ?_, by decide⟩
  · intro time pos ref i hlen h1 h2 hviol hnone
    unfold spm_settling_time
    have hskip := spm_settling_scan_skip time pos ((2 / 100) * ref) ref
      (pos.length - 1) i (by omega) (fun k hk1 hk2 => hnone k hk1 (by omega))
    rw [hskip]
    obtain ⟨m, rfl⟩ : ∃ m, i = m + 1 := ⟨i - 1, by omega⟩
    rw [spm_settling_scan, if_pos hviol]
    have hiff : (m + 1 < time.length - 1) ↔ (m + 1 + 1 < pos.length) := by
      rw [hlen]
      omega
    rw [if_congr hiff rfl rfl]
  · intro time pos ref hnone
    unfold spm_settling_time
    rcases Nat.eq_zero_or_pos pos.length with h0 | hpos
    · rw [h0]
      rfl
    · have hskip := spm_settling_scan_skip time pos ((2 / 100) * ref) ref
        (pos.length - 1) 0 (Nat.zero_le _) (fun k hk1 hk2 => hnone k hk1 (by omega))
      rw [hskip]
      rfl

/-- C2 witness: a single violation at index 3 of a 10-sample series yields
settling time t[4] = 4. -/
theorem C2_witness :
    ([0, 1, 2, 3, 4, 5, 6, 7, 8, 9] : List ℚ).length =
        ([200, 200, 200, 300, 200, 200, 200, 200, 200, 200] : List ℚ).length ∧
      spm_settling_time [0, 1, 2, 3, 4, 5, 6, 7, 8, 9]
        [200, 200, 200, 300, 200, 200, 200, 200, 200, 200] 200 = some 4 := by
  refine ⟨by decide, ?_⟩
  have h := C2_settling_characterization.1 [0, 1, 2, 3, 4, 5, 6, 7, 8, 9]
    [200, 200, 200, 300, 200, 200, 200, 200, 200, 200] 200 3 (by decide)
    (by decide) (by decide) (by decide)
    (by
      intro k hk1 hk2
      have hk10 : k < 10 := by simpa using hk2
      interval_cases k <;> decide)
  rw [h]
  decide

theorem process_serial_data_cons (b : RunBuf) (x : ℚ × ℚ) (xs : List (ℚ × ℚ)) :
    process_serial_data b (x :: xs) = process_serial_data (process_line b x) xs :=
  rfl

set_option maxHeartbeats 2000000 in
theorem process_samples26 (a t : ℚ) :
    process_serial_data ⟨[], [], ⟨a, t, true⟩⟩ samples26 = postBuf := by
  have hs : samples26 =
      ((0 : ℚ), (1 : ℚ)) :: (List.range 25).map (fun i => ((0 : ℚ), (i : ℚ) + 2)) :=
    rfl
  have h1 : process_line ⟨[], [], ⟨a, t, true⟩⟩ ((0 : ℚ), (1 : ℚ)) =
      ⟨[], [], ⟨0, 1, false⟩⟩ := rfl
  rw [hs, process_serial_data_cons, h1]
  decide

theorem steady_zeros : check_steady_state zeros25 = true := by decide

theorem stopped_zeros : check_stopped zeros25 = true := by decide

theorem getD_append_cons : ∀ (l r : List Int) (d : Int),
    (l ++ d :: r).getD l.length 0 = d
  | [], _, _ => rfl
  | _ :: xs, r, d => getD_append_cons xs r d

theorem run_cycle (dvals : List Int) (k : Nat)
    (res : List (Int × (List ℚ × List ℚ))) (b : RunBuf) (snt : List Int)
    (h2 : k < dvals.length) :
    runScript dvals perRun ⟨.START_MOTOR, k, res, b, snt⟩ =
      ⟨.START_MOTOR, k + 1, res ++ [(dvals.getD k 0, (times25, zeros25))],
        postBuf, snt ++ [dvals.getD k 0, 0]⟩ := by
  have e1 : manage_experiment dvals [] ⟨.START_MOTOR, k, res, b, snt⟩ =
      ⟨.WAIT_STEADY, k, res, ⟨[], [], ⟨b.est.last_angle, b.est.last_time, true⟩⟩,
        snt ++ [dvals.getD k 0]⟩ := by
    unfold manage_experiment
    simp only [process_serial_data, List.foldl]
    rw [if_pos h2]
  have e2 : manage_experiment dvals samples26
      ⟨.WAIT_STEADY, k, res, ⟨[], [], ⟨b.est.last_angle, b.est.last_time, true⟩⟩,
        snt ++ [dvals.getD k 0]⟩ =
      ⟨.WAIT_STOP, k, res, postBuf, (snt ++ [dvals.getD k 0]) ++ [0]⟩ := by
    unfold manage_experiment
    rw [process_samples26]
    simp only [steady_zeros, postBuf, if_true]
  have e3 : manage_experiment dvals []
      ⟨.WAIT_STOP, k, res, postBuf, (snt ++ [dvals.getD k 0]) ++ [0]⟩ =
      ⟨.START_MOTOR, k + 1, res ++ [(dvals.getD k 0, (times25, zeros25))],
        postBuf, (snt ++ [dvals.getD k 0]) ++ [0]⟩ := by
    unfold manage_experiment
    simp only [process_serial_data, List.foldl]
    simp only [stopped_zeros, postBuf, if_true]
  show manage_experiment dvals []
      (manage_experiment dvals samples26
        (manage_experiment dvals [] ⟨.START_MOTOR, k, res, b, snt⟩)) = _
  rw [e1, e2, e3]
  simp [List.append_assoc]

theorem sweep_runs :
    ∀ (pending done : List Int) (res : List (Int × (List ℚ × List ℚ)))
      (b : RunBuf) (snt : List Int),
      (runScript (done ++ pending) (scriptFor pending.length)
          ⟨.START_MOTOR, done.length, res, b, snt⟩).state = .FINISHED
      ∧ (runScript (done ++ pending) (scriptFor pending.length)
          ⟨.START_MOTOR, done.length, res, b, snt⟩).results =
          res ++ pending.map (fun d => (d, (times25, zeros25)))
      ∧ (runScript (done ++ pending) (scriptFor pending.length)
          ⟨.START_MOTOR, done.length, res, b, snt⟩).sent =
          snt ++ sentFor pending := by
  intro pending
  induction pending with
  | nil =>
    intro done res b snt
    rw [List.append_nil, List.length_nil]
    have efin : runScript done (scriptFor 0)
        ⟨.START_MOTOR, done.length, res, b, snt⟩ =
        ⟨.FINISHED, done.length, res, b, snt⟩ := by
      show manage_experiment done []
          ⟨.START_MOTOR, done.length, res, b, snt⟩ = _
      unfold manage_experiment
      simp only [process_serial_data, List.foldl]
      rw [if_neg (lt_irrefl _)]
    rw [efin]
    simp [sentFor]
  | cons d rest ih =>
    intro done res b snt
    have hlt : done.length < (done ++ d :: rest).length := by
      simp
    have hget : (done ++ d :: rest).getD done.length 0 = d :=
      getD_append_cons done rest d
    have happ : runScript (done ++ d :: rest) (scriptFor (d :: rest).length)
        ⟨.START_MOTOR, done.length, res, b, snt⟩ =
        runScript (done ++ d :: rest) (scriptFor rest.length)
          (runScript (done ++ d :: rest) perRun
            ⟨.START_MOTOR, done.length, res, b, snt⟩) := by
      show runScript (done ++ d :: rest) (perRun ++ scriptFor rest.length) _ = _
      unfold runScript
      rw [List.foldl_append]
    rw [happ, run_cycle (done ++ d :: rest) done.length res b snt hlt, hget]
    have := ih (done ++ [d]) (res ++ [(d, (times25, zeros25))]) postBuf
      (snt ++ [d, 0])
    have e : (done ++ [d]) ++ rest = done ++ d :: rest := by simp
    have e2 : (done ++ [d]).length = done.length + 1 := by simp
    rw [e, e2] at this
    refine ⟨this.1, ?_, ?_⟩
    · rw [this.2.1]
      simp
    · rw [this.2.2]
      simp [sentFor]

/-- C1: the results mapping changes only on the WAIT_STOP transition with the
stop detector satisfied, where exactly one entry keyed by the current
parameter value is appended (no other transition adds or removes entries);
and for every sweep over distinct parameter values, driven by the canonical
input schedule that satisfies each wait state, the machine reaches FINISHED
with exactly one results entry per value, keyed by the distinct values in
order, and the final command written to the transport is the zero command. -/
theorem C1_state_machine :
    (∀ dvals : List Int, ∀ input : List (ℚ × ℚ), ∀ s : ExpState,
        (manage_experiment dvals input s).results = s.results
        ∨ (s.state = .WAIT_STOP
            ∧ check_stopped (process_serial_data s.run input).vel_buf = true
            ∧ (manage_experiment dvals input s).results =
                s.results ++ [(dvals.getD s.d_index 0,
                  ((process_serial_data s.run input).time_buf,
                    (process_serial_data s.run input).vel_buf))]
            ∧ (manage_experiment dvals input s).state = .START_MOTOR
            ∧ (manage_experiment dvals input s).d_index = s.d_index + 1))
    ∧ (∀ dvals : List Int, dvals.Nodup →
        (mainLoop dvals (canonicalScript dvals.length)).state = .FINISHED
        ∧ (mainLoop dvals (canonicalScript dvals.length)).results.map Prod.fst =
            dvals
        ∧ (mainLoop dvals (canonicalScript dvals.length)).results.length =
            dvals.length
        ∧ ((mainLoop dvals (canonicalScript dvals.length)).results.map
            Prod.fst).Nodup
        ∧ (mainLoop dvals (canonicalScript dvals.length)).sent.getLast? =
            some 0) := by
  constructor
  · intro dvals input s
    obtain ⟨st, k, res, b, snt⟩ := s
    cases st with
    | IDLE => left; rfl
    | START_MOTOR =>
      left
      by_cases h : k < dvals.length <;> simp [manage_experiment, h]
    | WAIT_STEADY =>
      left
      rcases Bool.eq_false_or_eq_true
          (check_steady_state (process_serial_data b input).vel_buf) with h | h <;>
        simp [manage_experiment, h]
    | WAIT_STOP =>
      rcases Bool.eq_false_or_eq_true
          (check_stopped (process_serial_data b input).vel_buf) with h | h
      · right
        refine ⟨rfl, ?_, ?_, ?_, ?_⟩ <;> simp [manage_experiment, h]
      · left
        simp [manage_experiment, h]
    | FINISHED => left; rfl
    | PLOT_CLOSED => left; rfl
  · intro dvals hnd
    have hrun := sweep_runs dvals [] [] ⟨[], [], ⟨0, 0, true⟩⟩ [0]
    rw [List.nil_append, List.length_nil] at hrun
    have hstate : (mainLoop dvals (canonicalScript dvals.length)).state =
        (runScript dvals (scriptFor dvals.length)
          ⟨.START_MOTOR, 0, [], ⟨[], [], ⟨0, 0, true⟩⟩, [0]⟩).state := rfl
    have hres : (mainLoop dvals (canonicalScript dvals.length)).results =
        (runScript dvals (scriptFor dvals.length)
          ⟨.START_MOTOR, 0, [], ⟨[], [], ⟨0, 0, true⟩⟩, [0]⟩).results := rfl
    have hsent : (mainLoop dvals (canonicalScript dvals.length)).sent =
        (runScript dvals (scriptFor dvals.length)
          ⟨.START_MOTOR, 0, [], ⟨[], [], ⟨0, 0, true⟩⟩, [0]⟩).sent ++ [0] := rfl
    refine ⟨?_, ?_, ?_, ?_, ?_⟩
    · rw [hstate]
      exact hrun.1
    · rw [hres, hrun.2.1]
      simp only [List.nil_append, List.map_map]
      have hid : (Prod.fst ∘ fun d : Int => (d, (times25, zeros25))) = id := rfl
      rw [hid, List.map_id]
    · rw [hres, hrun.2.1]
      simp
    · rw [hres, hrun.2.1]
      simp only [List.nil_append, List.map_map]
      have hid : (Prod.fst ∘ fun d : Int => (d, (times25, zeros25))) = id := rfl
      rw [hid, List.map_id]
      exact hnd
    · rw [hsent]
      simp

/-- C1 witness: the concrete 5-value sweep over D_VALUES driven by the
canonical schedule reaches FINISHED with the five distinct keys and a final
zero command. -/
theorem C1_witness :
    D_VALUES.Nodup ∧
      ((mainLoop D_VALUES (canonicalScript D_VALUES.length)).state = .FINISHED
      ∧ (mainLoop D_VALUES (canonicalScript D_VALUES.length)).results.map
          Prod.fst = D_VALUES
      ∧ (mainLoop D_VALUES (canonicalScript D_VALUES.length)).results.length =
          D_VALUES.length
      ∧ ((mainLoop D_VALUES (canonicalScript D_VALUES.length)).results.map
          Prod.fst).Nodup
      ∧ (mainLoop D_VALUES (canonicalScript D_VALUES.length)).sent.getLast? =
          some 0) :=
  ⟨by decide, C1_state_machine.2 D_VALUES (by decide)⟩
